import Mathlib

/-!
Verification of the reporting-window and aggregation core of sr-ops-suite.

Dates are embedded as day counts (days since 1970-01-01, as an `Int`), with
the standard civil-calendar conversions used to recover year/month/day and
the weekday (Python `date.weekday()`: Monday = 0, ..., Sunday = 6).
-/

namespace SrOps

/-- Day count since 1970-01-01 for a civil date `(y, m, d)` (proleptic
Gregorian), computed with floor divisions on era/year-of-era decomposition. -/
def days_from_civil (y m d : Int) : Int :=
  let yAdj : Int := if m ≤ 2 then y - 1 else y
  let era : Int := Int.fdiv yAdj 400
  let yoe : Int := yAdj - era * 400
  let mp : Int := if 2 < m then m - 3 else m + 9
  let doy : Int := Int.fdiv (153 * mp + 2) 5 + d - 1
  let doe : Int := yoe * 365 + Int.fdiv yoe 4 - Int.fdiv yoe 100 + doy
  era * 146097 + doe - 719468

/-- Inverse conversion: day count to `(year, month, day)`. -/
def civil_from_days (z0 : Int) : Int × Int × Int :=
  let z : Int := z0 + 719468
  let era : Int := Int.fdiv z 146097
  let doe : Int := z - era * 146097
  let yoe : Int :=
    Int.fdiv (doe - Int.fdiv doe 1460 + Int.fdiv doe 36524 - Int.fdiv doe 146096) 365
  let y : Int := yoe + era * 400
  let doy : Int := doe - (365 * yoe + Int.fdiv yoe 4 - Int.fdiv yoe 100)
  let mp : Int := Int.fdiv (5 * doy + 2) 153
  let d : Int := doy - Int.fdiv (153 * mp + 2) 5 + 1
  let m : Int := if mp < 10 then mp + 3 else mp - 9
  (if m ≤ 2 then y + 1 else y, m, d)

/-- Year of a day count. -/
def yearOf (z : Int) : Int := (civil_from_days z).1

/-- Python `date.weekday()`: Monday = 0, ..., Sunday = 6.
1970-01-01 was a Thursday (weekday 3). -/
def weekday (z : Int) : Int := (z + 3) % 7

/-- `SPECIAL_OPEN_SUNDAYS_2025` from `business_calendar.py`. -/
def SPECIAL_OPEN_SUNDAYS_2025 : List Int :=
  [days_from_civil 2025 12 7, days_from_civil 2025 12 14, days_from_civil 2025 12 21]

/-- `HOLIDAY_CLOSURES_2025` from `business_calendar.py`. -/
def HOLIDAY_CLOSURES_2025 : List Int :=
  [days_from_civil 2025 5 24, days_from_civil 2025 5 26, days_from_civil 2025 7 4,
   days_from_civil 2025 9 1, days_from_civil 2025 11 28, days_from_civil 2025 12 25,
   days_from_civil 2025 12 26]

/-- `SPECIAL_OPEN_SUNDAYS_2026` from `business_calendar.py`. -/
def SPECIAL_OPEN_SUNDAYS_2026 : List Int :=
  [days_from_civil 2026 12 6, days_from_civil 2026 12 13, days_from_civil 2026 12 20]

/-- `HOLIDAY_CLOSURES_2026` from `business_calendar.py`. -/
def HOLIDAY_CLOSURES_2026 : List Int :=
  [days_from_civil 2026 1 1, days_from_civil 2026 5 23, days_from_civil 2026 5 24,
   days_from_civil 2026 7 4, days_from_civil 2026 9 7, days_from_civil 2026 11 26,
   days_from_civil 2026 12 25, days_from_civil 2026 12 26]

/-- `is_business_day` from `business_calendar.py`: holiday closures (selected by
the date's year, empty for unconfigured years) override everything; otherwise a
Sunday is open iff it is a special open Sunday; otherwise Monday–Saturday are
open. -/
def is_business_day (d : Int) : Bool :=
  let year := yearOf d
  let holiday_set : List Int :=
    if year = 2025 then HOLIDAY_CLOSURES_2025
    else if year = 2026 then HOLIDAY_CLOSURES_2026
    else []
  let special_open_sundays : List Int :=
    if year = 2025 then SPECIAL_OPEN_SUNDAYS_2025
    else if year = 2026 then SPECIAL_OPEN_SUNDAYS_2026
    else []
  if d ∈ holiday_set then false
  else if weekday d = 6 then decide (d ∈ special_open_sundays)
  else decide (weekday d ∈ ([0, 1, 2, 3, 4, 5] : List Int))

/-- Bounded backward walk over days: the loop body of `find_last_open_day`
(`while not is_business_day(cursor): cursor -= 1`), unrolled with explicit
fuel.  `walk_back_spec` shows the result is the first open day at or before
the starting cursor, and `open_day_within_week` shows fuel 7 always reaches
an open day, so the bounded walk computes exactly what the unbounded source
loop computes. -/
def walk_back : Nat → Int → Int
  | 0, cursor => cursor
  | fuel + 1, cursor =>
    if is_business_day cursor then cursor else walk_back fuel (cursor - 1)

/-- `find_last_open_day` from `business_calendar.py`: starting from the day
before `today`, walk backward until reaching an open business day. -/
def find_last_open_day (today : Int) : Int :=
  walk_back 7 (today - 1)

/-- `get_reporting_window` from `business_calendar.py`:
start = last open business day before today, end = yesterday. -/
def get_reporting_window (today : Int) : Int × Int :=
  (find_last_open_day today, today - 1)

theorem weekday_bounds (z : Int) : 0 ≤ weekday z ∧ weekday z < 7 := by
  unfold weekday
  omega

theorem holiday_weekday_ne_one :
    ∀ h ∈ HOLIDAY_CLOSURES_2025 ++ HOLIDAY_CLOSURES_2026, weekday h ≠ 1 := by
  decide

theorem weekday_mem_workdays (d : Int) (h : weekday d ≠ 6) :
    weekday d ∈ ([0, 1, 2, 3, 4, 5] : List Int) := by
  have hb := weekday_bounds d
  simp only [List.mem_cons, List.not_mem_nil, or_false]
  omega

/-- A Tuesday is never in a holiday-closure set and is not a Sunday,
so every stretch of 7 consecutive days contains an open day. -/
theorem open_day_within_week (cursor : Int) :
    ∃ k : Nat, k < 7 ∧ is_business_day (cursor - k) = true := by
  refine ⟨((cursor + 2) % 7).toNat, ?_, ?_⟩
  · have h0 : 0 ≤ (cursor + 2) % 7 := Int.emod_nonneg _ (by norm_num)
    have h7 : (cursor + 2) % 7 < 7 := Int.emod_lt_of_pos _ (by norm_num)
    omega
  · set d : Int := cursor - ((cursor + 2) % 7).toNat with hd
    have hcast : (((cursor + 2) % 7).toNat : Int) = (cursor + 2) % 7 :=
      Int.toNat_of_nonneg (Int.emod_nonneg _ (by norm_num))
    have hwd : weekday d = 1 := by
      unfold weekday
      rw [hd, hcast]
      omega
    have hnh25 : d ∉ HOLIDAY_CLOSURES_2025 := by
      intro hmem
      exact holiday_weekday_ne_one d (List.mem_append_left _ hmem) hwd
    have hnh26 : d ∉ HOLIDAY_CLOSURES_2026 := by
      intro hmem
      exact holiday_weekday_ne_one d (List.mem_append_right _ hmem) hwd
    have hne6 : weekday d ≠ 6 := by
      rw [hwd]; norm_num
    have hmem05 := weekday_mem_workdays d hne6
    unfold is_business_day
    by_cases hy25 : yearOf d = 2025 <;> by_cases hy26 : yearOf d = 2026 <;>
      simp [hy25, hy26, hnh25, hnh26, hne6, hmem05]

theorem walk_back_spec (fuel : Nat) (cursor : Int)
    (hex : ∃ k : Nat, k < fuel ∧ is_business_day (cursor - k) = true) :
    is_business_day (walk_back fuel cursor) = true ∧
    walk_back fuel cursor ≤ cursor ∧
    ∀ d : Int, walk_back fuel cursor < d → d ≤ cursor → is_business_day d = false := by
  induction fuel generalizing cursor with
  | zero =>
    obtain ⟨k, hk, _⟩ := hex
    omega
  | succ n ih =>
    by_cases hopen : is_business_day cursor = true
    · refine ⟨by simp [walk_back, hopen], by simp [walk_back, hopen], ?_⟩
      intro d h1 h2
      simp [walk_back, hopen] at h1
      omega
    · have hstep : walk_back (n + 1) cursor = walk_back n (cursor - 1) := by
        simp [walk_back, hopen]
      have hex' : ∃ k : Nat, k < n ∧ is_business_day (cursor - 1 - k) = true := by
        obtain ⟨k, hk, hko⟩ := hex
        match k, hko with
        | 0, hko => exact absurd (by simpa using hko) hopen
        | k' + 1, hko =>
          refine ⟨k', by omega, ?_⟩
          have : cursor - 1 - (k' : Int) = cursor - ((k' : Int) + 1) := by omega
          rw [this]
          simpa using hko
      obtain ⟨h1, h2, h3⟩ := ih (cursor - 1) hex'
      rw [hstep]
      refine ⟨h1, by omega, ?_⟩
      intro d hd1 hd2
      by_cases hdc : d = cursor
      · subst hdc
        simpa using hopen
      · exact h3 d hd1 (by omega)

theorem find_last_open_day_spec (today : Int) :
    is_business_day (find_last_open_day today) = true ∧
    find_last_open_day today ≤ today - 1 ∧
    ∀ d : Int, find_last_open_day today < d → d ≤ today - 1 →
      is_business_day d = false := by
  exact walk_back_spec 7 (today - 1) (open_day_within_week (today - 1))

/-- Holiday-closure membership as the claim states it: the date is in its own
year's configured holiday set, with unconfigured years treated as empty. -/
def claim_holiday (d : Int) : Prop :=
  (yearOf d = 2025 ∧ d ∈ HOLIDAY_CLOSURES_2025) ∨
  (yearOf d = 2026 ∧ d ∈ HOLIDAY_CLOSURES_2026)

/-- Special-open-Sunday membership as the claim states it. -/
def claim_special_sunday (d : Int) : Prop :=
  (yearOf d = 2025 ∧ d ∈ SPECIAL_OPEN_SUNDAYS_2025) ∨
  (yearOf d = 2026 ∧ d ∈ SPECIAL_OPEN_SUNDAYS_2026)

/-- **C5.** `is_business_day` is decided by precedence: a holiday closure of
the date's year forces closed regardless of weekday (so a holiday on a
special-open Sunday is closed); otherwise a Sunday is open iff it is in its
year's special-open-Sunday set; otherwise (Mon-Sat) the day is open; years
with no configured data are treated as having empty sets. -/
instance (d : Int) : Decidable (claim_holiday d) := by
  unfold claim_holiday
  infer_instance

instance (d : Int) : Decidable (claim_special_sunday d) := by
  unfold claim_special_sunday
  infer_instance

theorem is_business_day_precedence (d : Int) :
    (claim_holiday d → is_business_day d = false) ∧
    (¬ claim_holiday d → weekday d = 6 →
      (is_business_day d = true ↔ claim_special_sunday d)) ∧
    (¬ claim_holiday d → weekday d ≠ 6 → is_business_day d = true) := by
  unfold is_business_day claim_holiday claim_special_sunday
  by_cases hy25 : yearOf d = 2025
  · by_cases hh : d ∈ HOLIDAY_CLOSURES_2025
    · simp [hy25, hh]
    · by_cases hsun : weekday d = 6
      · simp [hy25, hh, hsun]
      · simp [hy25, hh, hsun, weekday_mem_workdays d hsun]
  · by_cases hy26 : yearOf d = 2026
    · by_cases hh : d ∈ HOLIDAY_CLOSURES_2026
      · simp [hy25, hy26, hh]
      · by_cases hsun : weekday d = 6
        · simp [hy25, hy26, hh, hsun]
        · simp [hy25, hy26, hh, hsun, weekday_mem_workdays d hsun]
    · by_cases hsun : weekday d = 6
      · simp [hy25, hy26, hsun]
      · simp [hy25, hy26, hsun, weekday_mem_workdays d hsun]

/-- **C5 witness.** Concrete instances: Christmas 2025 (holiday) is closed,
2025-12-07 (special open Sunday) is open, 2025-12-08 (a Monday) is open. -/
theorem is_business_day_precedence_witness :
    is_business_day (days_from_civil 2025 12 25) = false ∧
    is_business_day (days_from_civil 2025 12 7) = true ∧
    is_business_day (days_from_civil 2025 12 8) = true := by
  refine ⟨?_, ?_, ?_⟩
  · exact (is_business_day_precedence (days_from_civil 2025 12 25)).1 (by decide)
  · exact ((is_business_day_precedence (days_from_civil 2025 12 7)).2.1
      (by decide) (by decide)).mpr (by decide)
  · exact (is_business_day_precedence (days_from_civil 2025 12 8)).2.2
      (by decide) (by decide)

/-- **C4.** `get_reporting_window today` returns `(start, end)` with
`end = today - 1`, `start` an open business day, `start ≤ end`, and every day
strictly between `start` and `today` closed (so `start` is the most recent
open business day strictly before `today`, as found by walking back from
`today - 1` while days are closed). -/
theorem get_reporting_window_correct (today d : Int) :
    (get_reporting_window today).2 = today - 1 ∧
    is_business_day (get_reporting_window today).1 = true ∧
    (get_reporting_window today).1 ≤ (get_reporting_window today).2 ∧
    ((get_reporting_window today).1 < d → d < today → is_business_day d = false) := by
  obtain ⟨h1, h2, h3⟩ := find_last_open_day_spec today
  exact ⟨rfl, h1, h2, fun hd1 hd2 => h3 d hd1 (by omega)⟩

/-- **C4 witness.** `today` = Saturday 2025-11-29: the window ends on Friday
2025-11-28 (Thanksgiving closure per the 2025 table) and starts on the open
Thursday 2025-11-27, and the closed Friday in between is skipped. -/
theorem get_reporting_window_correct_witness :
    (get_reporting_window (days_from_civil 2025 11 29)).2 =
      days_from_civil 2025 11 28 ∧
    (get_reporting_window (days_from_civil 2025 11 29)).1 =
      days_from_civil 2025 11 27 ∧
    is_business_day (days_from_civil 2025 11 28) = false := by
  refine ⟨by decide, by decide, ?_⟩
  exact (get_reporting_window_correct (days_from_civil 2025 11 29)
    (days_from_civil 2025 11 28)).2.2.2 (by decide) (by decide)

/-- A local ET timestamp: a calendar date (day count) plus clock time. -/
structure LocalDT where
  date : Int
  hour : Int
  minute : Int
  second : Int
deriving DecidableEq, Repr

/-- Window resolution and materialization from `main` of
`daily_sales_report.py` (lines 612-637): with an explicit override, the start
date defaults to the calendar-derived window start and the end date to today,
and `end < start` is rejected; without an override the run is skipped on
closed days, the start date is the calendar window start and the end date is
today.  Either way the window is materialized as start date 10:00:00 ET to
end date 09:59:59 ET. -/
def resolve_time_window (start_arg end_arg : Option Int) (today : Int) :
    Option (LocalDT × LocalDT) :=
  if start_arg.isSome || end_arg.isSome then
    let start_date := start_arg.getD (get_reporting_window today).1
    let end_date := end_arg.getD today
    if end_date < start_date then none
    else some (⟨start_date, 10, 0, 0⟩, ⟨end_date, 9, 59, 59⟩)
  else
    if is_business_day today then
      some (⟨(get_reporting_window today).1, 10, 0, 0⟩, ⟨today, 9, 59, 59⟩)
    else none

/-- **C6.** Every materialized time window attaches clock time 10:00:00 to the
resolved start date and 09:59:59 (one second before 10:00:00) to the resolved
end date, so the end instant falls on the resolved end date itself and the
start date never exceeds the end date; the calendar-derived path uses the
calendar window start with today as end date, and the override path uses the
explicitly supplied dates. -/
theorem materialized_window_times (sa ea : Option Int) (today sd ed : Int)
    (sdt edt : LocalDT) :
    (resolve_time_window sa ea today = some (sdt, edt) →
      sdt.hour = 10 ∧ sdt.minute = 0 ∧ sdt.second = 0 ∧
      edt.hour = 9 ∧ edt.minute = 59 ∧ edt.second = 59 ∧ sdt.date ≤ edt.date) ∧
    (is_business_day today = true →
      resolve_time_window none none today =
        some (⟨(get_reporting_window today).1, 10, 0, 0⟩, ⟨today, 9, 59, 59⟩)) ∧
    (sd ≤ ed →
      resolve_time_window (some sd) (some ed) today =
        some (⟨sd, 10, 0, 0⟩, ⟨ed, 9, 59, 59⟩)) := by
  refine ⟨?_, ?_, ?_⟩
  · intro hres
    unfold resolve_time_window at hres
    by_cases hover : (sa.isSome || ea.isSome) = true
    · rw [if_pos hover] at hres
      by_cases hlt : ea.getD today < sa.getD (get_reporting_window today).1
      · rw [if_pos hlt] at hres
        exact absurd hres (by simp)
      · rw [if_neg hlt] at hres
        injection hres with h2
        injection h2 with hs he
        subst hs
        subst he
        exact ⟨rfl, rfl, rfl, rfl, rfl, rfl, le_of_not_lt hlt⟩
    · rw [if_neg hover] at hres
      by_cases hbd : is_business_day today = true
      · rw [if_pos hbd] at hres
        injection hres with h2
        injection h2 with hs he
        subst hs
        subst he
        have hle := (find_last_open_day_spec today).2.1
        refine ⟨rfl, rfl, rfl, rfl, rfl, rfl, ?_⟩
        show find_last_open_day today ≤ today
        omega
      · rw [if_neg hbd] at hres
        exact absurd hres (by simp)
  · intro hbd
    simp [resolve_time_window, hbd]
  · intro hle
    have hnlt : ¬ ((some ed).getD today < (some sd).getD (get_reporting_window today).1) := by
      simp only [Option.getD_some]
      omega
    simp only [resolve_time_window, Option.isSome_some, Bool.or_self, if_true, hnlt,
      if_false, Option.getD_some]
    rw [if_neg (by omega : ¬ ed < sd)]

/-- **C6 witness.** Concrete run for today = Saturday 2025-11-29 (calendar
path) and for an explicit override window 2025-07-01 to 2025-07-03. -/
theorem materialized_window_times_witness :
    resolve_time_window none none (days_from_civil 2025 11 29) =
      some (⟨days_from_civil 2025 11 27, 10, 0, 0⟩,
            ⟨days_from_civil 2025 11 29, 9, 59, 59⟩) ∧
    resolve_time_window (some (days_from_civil 2025 7 1))
        (some (days_from_civil 2025 7 3)) (days_from_civil 2025 11 29) =
      some (⟨days_from_civil 2025 7 1, 10, 0, 0⟩,
            ⟨days_from_civil 2025 7 3, 9, 59, 59⟩) ∧
    (⟨days_from_civil 2025 11 27, 10, 0, 0⟩ : LocalDT).hour = 10 := by
  refine ⟨?_, ?_, ?_⟩
  · have h := (materialized_window_times none none (days_from_civil 2025 11 29)
      0 0 ⟨0, 0, 0, 0⟩ ⟨0, 0, 0, 0⟩).2.1 (by decide)
    rw [h]
    decide
  · exact (materialized_window_times (some (days_from_civil 2025 7 1))
      (some (days_from_civil 2025 7 3)) (days_from_civil 2025 11 29)
      (days_from_civil 2025 7 1) (days_from_civil 2025 7 3)
      ⟨0, 0, 0, 0⟩ ⟨0, 0, 0, 0⟩).2.2 (by decide)
  · rfl

/-! ## Aggregation engine (`daily_sales_report.py`) -/

/-- ASCII lowercasing of one character, as Python `str.lower` acts on the
ASCII range used by the blacklist check. -/
def ascii_lower_char (c : Char) : Char :=
  if 'A' ≤ c ∧ c ≤ 'Z' then Char.ofNat (c.toNat + 32) else c

/-- Python `s.lower()` (ASCII range). -/
def py_lower (s : String) : String :=
  String.mk (s.data.map ascii_lower_char)

/-- Whether `needle` occurs at the head of `hay`. -/
def list_starts : List Char → List Char → Bool
  | [], _ => true
  | _ :: _, [] => false
  | a :: as, b :: bs => a == b && list_starts as bs

/-- Whether `needle` occurs anywhere in `hay`. -/
def has_sub (needle : List Char) : List Char → Bool
  | [] => needle.isEmpty
  | c :: rest => list_starts needle (c :: rest) || has_sub needle rest

/-- Python `needle in hay` on strings: substring containment. -/
def py_in_str (needle hay : String) : Bool :=
  has_sub needle.data hay.data

/-- Python `x or default` for an optional string (`None` and `""` are falsy). -/
def py_or_str (x : Option String) (dflt : String) : String :=
  match x with
  | some s => if s = "" then dflt else s
  | none => dflt

/-- Python truthiness of an optional string (`if sku:`). -/
def py_truthy (x : Option String) : Bool :=
  match x with
  | some s => s != ""
  | none => false

/-- Lookup in a Python-dict comprehension built from key/value pairs:
later pairs override earlier ones. -/
def dict_get (l : List (String × String)) (k : String) : Option String :=
  l.foldl (fun acc p => if p.1 == k then some p.2 else acc) none

/-- Association-list lookup, modelling Python `dict.get` (keys are unique in
the dicts the scripts build). -/
def alist_get {α : Type} : List (String × α) → String → Option α
  | [], _ => none
  | p :: m, k => if p.1 == k then some p.2 else alist_get m k

/-- Association-list update at an existing key. -/
def alist_set {α : Type} : List (String × α) → String → α → List (String × α)
  | [], _, _ => []
  | p :: m, k, v => (if p.1 == k then (k, v) else p) :: alist_set m k v

/-- `BLACKLISTED_PRODUCT_IDS` from `daily_sales_report.py`. -/
def BLACKLISTED_PRODUCT_IDS : List String :=
  ["gid://shopify/Product/5238890889349",
   "gid://shopify/Product/6544636477573",
   "gid://shopify/Product/5238923001989",
   "gid://shopify/Product/6604620202117",
   "gid://shopify/Product/6589468967045",
   "gid://shopify/Product/6830824489093"]

/-- A line item's variant as fetched by `ORDERS_24H_QUERY`: sku, barcode and
the embedded product (id, title, totalInventory; non-null per the GraphQL
schema whenever the variant itself is non-null). -/
structure Variant where
  sku : Option String
  barcode : Option String
  productId : String
  productTitle : String
  productTotalInventory : Option Int
deriving DecidableEq, Repr

/-- An order line item as consumed by `aggregate_products`. -/
structure LineItem where
  quantity : Int
  customAttributes : List (String × String)
  variant : Option Variant
deriving DecidableEq, Repr

/-- An order as consumed by `aggregate_products` (source name and channel
handle collapse a missing value to `""`, which compares unequal to the
channel identifiers exactly as `None`/missing does in the source). -/
structure Order where
  sourceName : String
  channelHandle : String
  lineItems : List LineItem
deriving DecidableEq, Repr

/-- One product's enrichment record as built by `fetch_product_details`
(all keys are always present in the dict it builds). -/
structure PDetail where
  title : String
  vendor : String
  available : Option Int
  collections : List String
  incoming : Int
  price : Option String
deriving DecidableEq, Repr

/-- A bucket entry (`target[pid]` in `aggregate_products`). -/
structure Entry where
  title : String
  vendor : String
  author : String
  collections : List String
  isbn : String
  available : Option Int
  incoming : Int
  price : Option String
  ol_sold : Int
  pos_sold : Int
  attributes : String
deriving DecidableEq, Repr

/-- The four sales buckets of `aggregate_products`. -/
structure Buckets where
  main_sales : List (String × Entry)
  backorder_sales : List (String × Entry)
  oos_sales : List (String × Entry)
  preorder_sales : List (String × Entry)
deriving DecidableEq, Repr

/-- A name for each of the four buckets. -/
inductive BTag where
  | mainB
  | backorderB
  | oosB
  | preorderB
deriving DecidableEq, Repr

def bucketOf (st : Buckets) : BTag → List (String × Entry)
  | .mainB => st.main_sales
  | .backorderB => st.backorder_sales
  | .oosB => st.oos_sales
  | .preorderB => st.preorder_sales

def setBucket (st : Buckets) : BTag → List (String × Entry) → Buckets
  | .mainB, m => { st with main_sales := m }
  | .backorderB, m => { st with backorder_sales := m }
  | .oosB, m => { st with oos_sales := m }
  | .preorderB, m => { st with preorder_sales := m }

/-- `title = pdetail.get("title", base_title)`. -/
def effTitle (details : List (String × PDetail)) (v : Variant) : String :=
  match alist_get details v.productId with
  | some pd => pd.title
  | none => v.productTitle

/-- `collections = pdetail.get("collections", [])`. -/
def effCollections (details : List (String × PDetail)) (v : Variant) : List String :=
  match alist_get details v.productId with
  | some pd => pd.collections
  | none => []

/-- `available = pdetail.get("available", product.get("totalInventory"))`. -/
def effAvailable (details : List (String × PDetail)) (v : Variant) : Option Int :=
  match alist_get details v.productId with
  | some pd => pd.available
  | none => v.productTotalInventory

/-- `incoming = pdetail.get("incoming", 0)`. -/
def effIncoming (details : List (String × PDetail)) (v : Variant) : Int :=
  match alist_get details v.productId with
  | some pd => pd.incoming
  | none => 0

/-- `price = pdetail.get("price")`. -/
def effPrice (details : List (String × PDetail)) (v : Variant) : Option String :=
  match alist_get details v.productId with
  | some pd => pd.price
  | none => none

/-- `vendor = pdetail.get("vendor", "")`. -/
def effVendor (details : List (String × PDetail)) (v : Variant) : String :=
  match alist_get details v.productId with
  | some pd => pd.vendor
  | none => ""

/-- The exclusion filter of `aggregate_products`:
`pid in BLACKLISTED_PRODUCT_IDS or "cookbook club" in title.lower()`. -/
def excluded (details : List (String × PDetail)) (v : Variant) : Bool :=
  decide (v.productId ∈ BLACKLISTED_PRODUCT_IDS) ||
    py_in_str "cookbook club" (py_lower (effTitle details v))

/-- The bucket selection of `aggregate_products` (lines 429-441): preorder
collection membership first, then sign of the available inventory, with
missing inventory defaulting to the main bucket. -/
def line_tag (details : List (String × PDetail)) (v : Variant) : BTag :=
  if (effCollections details v).contains "Preorder" then .preorderB
  else
    match effAvailable details v with
    | some a => if a < 0 then .backorderB else if a = 0 then .oosB else .mainB
    | none => .mainB

/-- The attribute label: `Signed` and/or `Bookplate`, joined with `", "`. -/
def attr_label (item : LineItem) : String :=
  String.intercalate ", "
    ((if dict_get item.customAttributes "_signed" == some "true" then ["Signed"] else []) ++
     (if dict_get item.customAttributes "_bookplate" == some "true" then ["Bookplate"] else []))

/-- A fresh bucket entry for a first-seen product id. -/
def new_entry (details : List (String × PDetail)) (v : Variant) (item : LineItem) : Entry :=
  { title := effTitle details v
    vendor := effVendor details v
    author := py_or_str v.sku ""
    collections := effCollections details v
    isbn := py_or_str v.barcode "NO BARCODE"
    available := effAvailable details v
    incoming := effIncoming details v
    price := effPrice details v
    ol_sold := 0
    pos_sold := 0
    attributes := attr_label item }

/-- Refresh of an existing bucket entry: enrichment fields are overwritten
with the latest-seen values, sku/barcode only when the new value is truthy. -/
def refresh_entry (details : List (String × PDetail)) (v : Variant) (e : Entry) : Entry :=
  { e with
    title := effTitle details v
    vendor := effVendor details v
    collections := effCollections details v
    available := effAvailable details v
    incoming := effIncoming details v
    price := effPrice details v
    author := if py_truthy v.sku then v.sku.getD "" else e.author
    isbn := if py_truthy v.barcode then v.barcode.getD "" else e.isbn }

/-- Create or extend the bucket entry for this line item's product, then add
its quantity to the online or POS counter. -/
def bucket_upsert (m : List (String × Entry)) (details : List (String × PDetail))
    (v : Variant) (item : LineItem) (is_online : Bool) : List (String × Entry) :=
  let entry0 :=
    match alist_get m v.productId with
    | none => new_entry details v item
    | some e => refresh_entry details v e
  let entry :=
    if is_online then { entry0 with ol_sold := entry0.ol_sold + item.quantity }
    else { entry0 with pos_sold := entry0.pos_sold + item.quantity }
  match alist_get m v.productId with
  | none => m ++ [(v.productId, entry)]
  | some _ => alist_set m v.productId entry

/-- Processing of one line item inside `aggregate_products`: skip when there
is no variant reference, skip when the exclusion filter fires, otherwise
update exactly the selected bucket. -/
def process_line (details : List (String × PDetail)) (source handle : String)
    (st : Buckets) (item : LineItem) : Buckets :=
  match item.variant with
  | none => st
  | some v =>
    if excluded details v then st
    else
      let tag := line_tag details v
      let is_online := source == "web" || handle == "online_store"
      setBucket st tag (bucket_upsert (bucketOf st tag) details v item is_online)

/-- `aggregate_products` from `daily_sales_report.py`: fold every line item of
every order into the four buckets. -/
def aggregate_products (orders : List Order) (details : List (String × PDetail)) :
    Buckets :=
  orders.foldl
    (fun st o => o.lineItems.foldl (process_line details o.sourceName o.channelHandle) st)
    ⟨[], [], [], []⟩

/-- Classification as the claims state it, over a collection set and an
optional available-inventory figure. -/
def claimClassify (collections : List String) (available : Option Int) : BTag :=
  if collections.contains "Preorder" then .preorderB
  else
    match available with
    | some a => if a < 0 then .backorderB else if a = 0 then .oosB else .mainB
    | none => .mainB

theorem bucketOf_setBucket_self (st : Buckets) (t : BTag) (m : List (String × Entry)) :
    bucketOf (setBucket st t m) t = m := by
  cases t <;> rfl

theorem bucketOf_setBucket_ne (st : Buckets) (t t' : BTag) (m : List (String × Entry))
    (h : t ≠ t') : bucketOf (setBucket st t' m) t = bucketOf st t := by
  cases t <;> cases t' <;> first | exact absurd rfl h | rfl

theorem alist_get_append_self {α : Type} (m : List (String × α)) (k : String) (v : α)
    (h : alist_get m k = none) : alist_get (m ++ [(k, v)]) k = some v := by
  induction m with
  | nil => simp [alist_get]
  | cons p m ih =>
    by_cases hp : p.1 == k
    · simp [alist_get, hp] at h
    · simp only [alist_get, hp, List.cons_append, if_false, Bool.false_eq_true] at h ⊢
      exact ih h

theorem alist_get_append_ne {α : Type} (m : List (String × α)) (k q : String) (v : α)
    (h : q ≠ k) : alist_get (m ++ [(k, v)]) q = alist_get m q := by
  have h' : ¬ k = q := fun hh => h hh.symm
  induction m with
  | nil => simp [alist_get, h']
  | cons p m ih =>
    by_cases hp : p.1 == q
    · simp [alist_get, hp]
    · simp only [alist_get, hp, List.cons_append, if_false, Bool.false_eq_true]
      exact ih

theorem alist_get_set_self {α : Type} (m : List (String × α)) (k : String) (v : α)
    (h : alist_get m k ≠ none) : alist_get (alist_set m k v) k = some v := by
  induction m with
  | nil => simp [alist_get] at h
  | cons p m ih =>
    by_cases hp : p.1 == k
    · simp [alist_get, alist_set, hp]
    · simp only [alist_get, alist_set, hp, if_false, Bool.false_eq_true] at h ⊢
      exact ih h

theorem alist_get_set_ne {α : Type} (m : List (String × α)) (k q : String) (v : α)
    (h : q ≠ k) : alist_get (alist_set m k v) q = alist_get m q := by
  induction m with
  | nil => rfl
  | cons p m ih =>
    by_cases hp : p.1 == k
    · have hkq : ¬ (k == q) = true := by
        simp only [beq_iff_eq]
        exact fun hh => h hh.symm
      have hpq : ¬ (p.1 == q) = true := by
        simp only [beq_iff_eq] at hp ⊢
        rw [hp]
        exact fun hh => h hh.symm
      simp only [alist_set, alist_get, hp, if_true, hkq, hpq, if_false, Bool.false_eq_true]
      exact ih
    · simp only [alist_set, alist_get, hp, if_false, Bool.false_eq_true]
      by_cases hpq : p.1 == q
      · simp [alist_get, hpq]
      · simp only [alist_get, hpq, if_false, Bool.false_eq_true]
        exact ih

theorem bucket_upsert_get_self (m : List (String × Entry))
    (details : List (String × PDetail)) (v : Variant) (item : LineItem) (b : Bool) :
    alist_get (bucket_upsert m details v item b) v.productId ≠ none := by
  unfold bucket_upsert
  cases h : alist_get m v.productId with
  | none =>
    simp only [h]
    rw [alist_get_append_self _ _ _ h]
    simp
  | some e =>
    simp only [h]
    rw [alist_get_set_self _ _ _ (by simp [h])]
    simp

theorem bucket_upsert_get_ne (m : List (String × Entry))
    (details : List (String × PDetail)) (v : Variant) (item : LineItem) (b : Bool)
    (q : String) (hq : q ≠ v.productId) :
    alist_get (bucket_upsert m details v item b) q = alist_get m q := by
  unfold bucket_upsert
  cases h : alist_get m v.productId with
  | none =>
    simp only [h]
    exact alist_get_append_ne _ _ _ _ hq
  | some e =>
    simp only [h]
    exact alist_get_set_ne _ _ _ _ hq

theorem process_line_variant_none (details : List (String × PDetail)) (s hd : String)
    (st : Buckets) (li : LineItem) (h : li.variant = none) :
    process_line details s hd st li = st := by
  unfold process_line
  rw [h]

theorem process_line_excluded_eq (details : List (String × PDetail)) (s hd : String)
    (st : Buckets) (li : LineItem) (v : Variant) (hv : li.variant = some v)
    (hex : excluded details v = true) : process_line details s hd st li = st := by
  unfold process_line
  rw [hv]
  simp [hex]

theorem process_line_some_eq (details : List (String × PDetail)) (s hd : String)
    (st : Buckets) (li : LineItem) (v : Variant) (hv : li.variant = some v)
    (hex : excluded details v = false) :
    process_line details s hd st li =
      setBucket st (line_tag details v)
        (bucket_upsert (bucketOf st (line_tag details v)) details v li
          (s == "web" || hd == "online_store")) := by
  unfold process_line
  rw [hv]
  simp [hex]

theorem process_line_lookup_ne (details : List (String × PDetail)) (s hd : String)
    (st : Buckets) (li : LineItem) (p : String)
    (hli : ∀ v : Variant, li.variant = some v → v.productId ≠ p) (t : BTag) :
    alist_get (bucketOf (process_line details s hd st li) t) p =
      alist_get (bucketOf st t) p := by
  cases hv : li.variant with
  | none => rw [process_line_variant_none _ _ _ _ _ hv]
  | some v =>
    have hne := hli v hv
    by_cases hex : excluded details v = true
    · rw [process_line_excluded_eq _ _ _ _ _ _ hv hex]
    · rw [process_line_some_eq _ _ _ _ _ _ hv (by simpa using hex)]
      by_cases ht : t = line_tag details v
      · subst ht
        rw [bucketOf_setBucket_self]
        exact bucket_upsert_get_ne _ _ _ _ _ _ (Ne.symm hne)
      · rw [bucketOf_setBucket_ne _ _ _ _ ht]

theorem process_line_presence (details : List (String × PDetail)) (s hd : String)
    (st : Buckets) (li : LineItem) (t : BTag) (p : String)
    (h : alist_get (bucketOf st t) p ≠ none) :
    alist_get (bucketOf (process_line details s hd st li) t) p ≠ none := by
  cases hv : li.variant with
  | none => rw [process_line_variant_none _ _ _ _ _ hv]; exact h
  | some v =>
    by_cases hex : excluded details v = true
    · rw [process_line_excluded_eq _ _ _ _ _ _ hv hex]; exact h
    · rw [process_line_some_eq _ _ _ _ _ _ hv (by simpa using hex)]
      by_cases ht : t = line_tag details v
      · subst ht
        rw [bucketOf_setBucket_self]
        by_cases hp : p = v.productId
        · subst hp
          exact bucket_upsert_get_self _ _ _ _ _
        · rw [bucket_upsert_get_ne _ _ _ _ _ _ hp]
          exact h
      · rw [bucketOf_setBucket_ne _ _ _ _ ht]
        exact h

theorem process_line_mem (details : List (String × PDetail)) (s hd : String)
    (st : Buckets) (li : LineItem) (v : Variant) (hv : li.variant = some v)
    (hex : excluded details v = false) :
    alist_get (bucketOf (process_line details s hd st li) (line_tag details v))
      v.productId ≠ none := by
  rw [process_line_some_eq _ _ _ _ _ _ hv hex, bucketOf_setBucket_self]
  exact bucket_upsert_get_self _ _ _ _ _

/-- Step preservation for a product whose line items are all excluded:
processing any line item that either belongs to another product or is
excluded leaves every lookup of `p` unchanged. -/
theorem process_line_absent_step (details : List (String × PDetail)) (s hd : String)
    (st : Buckets) (li : LineItem) (p : String)
    (h : ∀ v : Variant, li.variant = some v → v.productId = p →
      excluded details v = true) (t : BTag) :
    alist_get (bucketOf (process_line details s hd st li) t) p =
      alist_get (bucketOf st t) p := by
  cases hv : li.variant with
  | none => rw [process_line_variant_none _ _ _ _ _ hv]
  | some v =>
    by_cases hex : excluded details v = true
    · rw [process_line_excluded_eq _ _ _ _ _ _ hv hex]
    · refine process_line_lookup_ne _ _ _ _ _ _ (fun v' hv' => ?_) t
      rw [hv] at hv'
      cases hv'
      exact fun hp => hex (h v hv hp)

theorem foldl_lines_absent (details : List (String × PDetail)) (s hd : String)
    (ls : List LineItem) (st : Buckets) (p : String)
    (h : ∀ li ∈ ls, ∀ v : Variant, li.variant = some v → v.productId = p →
      excluded details v = true) (t : BTag) :
    alist_get (bucketOf (ls.foldl (process_line details s hd) st) t) p =
      alist_get (bucketOf st t) p := by
  induction ls generalizing st with
  | nil => rfl
  | cons li ls ih =>
    rw [List.foldl_cons]
    rw [ih _ (fun li' hm => h li' (List.mem_cons_of_mem _ hm))]
    exact process_line_absent_step _ _ _ _ _ _ (h li (List.mem_cons_self _ _)) t

theorem foldl_orders_absent (details : List (String × PDetail)) (orders : List Order)
    (st : Buckets) (p : String)
    (h : ∀ o ∈ orders, ∀ li ∈ o.lineItems, ∀ v : Variant, li.variant = some v →
      v.productId = p → excluded details v = true) (t : BTag) :
    alist_get (bucketOf (orders.foldl
      (fun st o => o.lineItems.foldl (process_line details o.sourceName o.channelHandle) st)
      st) t) p = alist_get (bucketOf st t) p := by
  induction orders generalizing st with
  | nil => rfl
  | cons o os ih =>
    rw [List.foldl_cons]
    rw [ih _ (fun o' hm => h o' (List.mem_cons_of_mem _ hm))]
    exact foldl_lines_absent _ _ _ _ _ _ (h o (List.mem_cons_self _ _)) t

/-- Step preservation off the classifying bucket: if every processed line item
of product `p` classifies to `tag`, then a lookup of `p` in any other bucket is
unchanged by one processing step. -/
theorem process_line_off_tag_step (details : List (String × PDetail)) (s hd : String)
    (st : Buckets) (li : LineItem) (p : String) (tag t : BTag)
    (hcl : ∀ v : Variant, li.variant = some v → v.productId = p →
      excluded details v = false → line_tag details v = tag)
    (ht : t ≠ tag) :
    alist_get (bucketOf (process_line details s hd st li) t) p =
      alist_get (bucketOf st t) p := by
  cases hv : li.variant with
  | none => rw [process_line_variant_none _ _ _ _ _ hv]
  | some v =>
    by_cases hex : excluded details v = true
    · rw [process_line_excluded_eq _ _ _ _ _ _ hv hex]
    · have hexf : excluded details v = false := by simpa using hex
      by_cases hpid : v.productId = p
      · have htag := hcl v hv hpid hexf
        rw [process_line_some_eq _ _ _ _ _ _ hv hexf]
        rw [bucketOf_setBucket_ne _ _ _ _ (htag ▸ ht)]
      · refine process_line_lookup_ne _ _ _ _ _ _ (fun v' hv' => ?_) t
        rw [hv] at hv'
        cases hv'
        exact hpid

theorem foldl_lines_off_tag (details : List (String × PDetail)) (s hd : String)
    (ls : List LineItem) (st : Buckets) (p : String) (tag t : BTag)
    (hcl : ∀ li ∈ ls, ∀ v : Variant, li.variant = some v → v.productId = p →
      excluded details v = false → line_tag details v = tag)
    (ht : t ≠ tag) :
    alist_get (bucketOf (ls.foldl (process_line details s hd) st) t) p =
      alist_get (bucketOf st t) p := by
  induction ls generalizing st with
  | nil => rfl
  | cons li ls ih =>
    rw [List.foldl_cons]
    rw [ih _ (fun li' hm => hcl li' (List.mem_cons_of_mem _ hm))]
    exact process_line_off_tag_step _ _ _ _ _ _ _ _
      (hcl li (List.mem_cons_self _ _)) ht

theorem foldl_orders_off_tag (details : List (String × PDetail)) (orders : List Order)
    (st : Buckets) (p : String) (tag t : BTag)
    (hcl : ∀ o ∈ orders, ∀ li ∈ o.lineItems, ∀ v : Variant, li.variant = some v →
      v.productId = p → excluded details v = false → line_tag details v = tag)
    (ht : t ≠ tag) :
    alist_get (bucketOf (orders.foldl
      (fun st o => o.lineItems.foldl (process_line details o.sourceName o.channelHandle) st)
      st) t) p = alist_get (bucketOf st t) p := by
  induction orders generalizing st with
  | nil => rfl
  | cons o os ih =>
    rw [List.foldl_cons]
    rw [ih _ (fun o' hm => hcl o' (List.mem_cons_of_mem _ hm))]
    exact foldl_lines_off_tag _ _ _ _ _ _ _ _
      (hcl o (List.mem_cons_self _ _)) ht

theorem foldl_lines_presence (details : List (String × PDetail)) (s hd : String)
    (ls : List LineItem) (st : Buckets) (t : BTag) (p : String)
    (h : alist_get (bucketOf st t) p ≠ none) :
    alist_get (bucketOf (ls.foldl (process_line details s hd) st) t) p ≠ none := by
  induction ls generalizing st with
  | nil => exact h
  | cons li ls ih =>
    rw [List.foldl_cons]
    exact ih _ (process_line_presence _ _ _ _ _ _ _ h)

theorem foldl_orders_presence (details : List (String × PDetail)) (orders : List Order)
    (st : Buckets) (t : BTag) (p : String)
    (h : alist_get (bucketOf st t) p ≠ none) :
    alist_get (bucketOf (orders.foldl
      (fun st o => o.lineItems.foldl (process_line details o.sourceName o.channelHandle) st)
      st) t) p ≠ none := by
  induction orders generalizing st with
  | nil => exact h
  | cons o os ih =>
    rw [List.foldl_cons]
    exact ih _ (foldl_lines_presence _ _ _ _ _ _ _ h)

theorem foldl_lines_mem (details : List (String × PDetail)) (s hd : String)
    (ls : List LineItem) (st : Buckets) (p : String) (tag : BTag)
    (hcl : ∀ li ∈ ls, ∀ v : Variant, li.variant = some v → v.productId = p →
      excluded details v = false → line_tag details v = tag)
    (hex : ∃ li ∈ ls, ∃ v : Variant, li.variant = some v ∧ v.productId = p ∧
      excluded details v = false) :
    alist_get (bucketOf (ls.foldl (process_line details s hd) st) tag) p ≠ none := by
  induction ls generalizing st with
  | nil => simp at hex
  | cons li ls ih =>
    rw [List.foldl_cons]
    obtain ⟨li', hm, v, hv, hpid, hexf⟩ := hex
    rcases List.mem_cons.mp hm with hhd | htl
    · subst hhd
      have htag := hcl li' (List.mem_cons_self _ _) v hv hpid hexf
      refine foldl_lines_presence _ _ _ _ _ _ _ ?_
      have := process_line_mem details s hd st li' v hv hexf
      rw [htag, hpid] at this
      exact this
    · exact ih _ (fun li'' hm' => hcl li'' (List.mem_cons_of_mem _ hm'))
        ⟨li', htl, v, hv, hpid, hexf⟩

theorem foldl_orders_mem (details : List (String × PDetail)) (orders : List Order)
    (st : Buckets) (p : String) (tag : BTag)
    (hcl : ∀ o ∈ orders, ∀ li ∈ o.lineItems, ∀ v : Variant, li.variant = some v →
      v.productId = p → excluded details v = false → line_tag details v = tag)
    (hex : ∃ o ∈ orders, ∃ li ∈ o.lineItems, ∃ v : Variant, li.variant = some v ∧
      v.productId = p ∧ excluded details v = false) :
    alist_get (bucketOf (orders.foldl
      (fun st o => o.lineItems.foldl (process_line details o.sourceName o.channelHandle) st)
      st) tag) p ≠ none := by
  induction orders generalizing st with
  | nil => simp at hex
  | cons o os ih =>
    rw [List.foldl_cons]
    obtain ⟨o', hm, li, hli, v, hv, hpid, hexf⟩ := hex
    rcases List.mem_cons.mp hm with hhd | htl
    · subst hhd
      refine foldl_orders_presence _ _ _ _ _ ?_
      exact foldl_lines_mem _ _ _ _ _ _ _ (hcl o' (List.mem_cons_self _ _))
        ⟨li, hli, v, hv, hpid, hexf⟩
    · exact ih _ (fun o'' hm' => hcl o'' (List.mem_cons_of_mem _ hm'))
        ⟨o', htl, li, hli, v, hv, hpid, hexf⟩

theorem aggregate_init_lookup (t : BTag) (p : String) :
    alist_get (bucketOf (⟨[], [], [], []⟩ : Buckets) t) p = none := by
  cases t <;> rfl

theorem line_tag_of_detail (details : List (String × PDetail)) (p : String)
    (pd : PDetail) (v : Variant) (hpd : alist_get details p = some pd)
    (hv : v.productId = p) :
    line_tag details v = claimClassify pd.collections pd.available := by
  unfold line_tag claimClassify effCollections effAvailable
  rw [hv, hpd]

/-- A product id appears on at least one processed line item: some line item
has a variant reference governing this product and passes the exclusion
filter. -/
def processed_line_exists (orders : List Order) (details : List (String × PDetail))
    (p : String) : Prop :=
  ∃ o ∈ orders, ∃ li ∈ o.lineItems, ∃ v : Variant, li.variant = some v ∧
    v.productId = p ∧ excluded details v = false

/-- **C1.** A resolved, non-excluded line item is classified into exactly one
bucket by the claimed precedence over its enrichment data (Preorder collection
membership first, then negative / zero / positive known available inventory,
with unknown inventory defaulting to MAIN): the governing product becomes
present in exactly that bucket, and every other bucket is left unchanged. -/
theorem line_item_classification (details : List (String × PDetail)) (src hdl : String)
    (st : Buckets) (li : LineItem) (v : Variant) (t : BTag)
    (hv : li.variant = some v) (hex : excluded details v = false) :
    alist_get (bucketOf (process_line details src hdl st li)
      (claimClassify (effCollections details v) (effAvailable details v)))
      v.productId ≠ none ∧
    (t ≠ claimClassify (effCollections details v) (effAvailable details v) →
      bucketOf (process_line details src hdl st li) t = bucketOf st t) := by
  have htag : line_tag details v =
      claimClassify (effCollections details v) (effAvailable details v) := rfl
  constructor
  · rw [← htag]
    exact process_line_mem _ _ _ _ _ _ hv hex
  · intro ht
    rw [process_line_some_eq _ _ _ _ _ _ hv hex]
    exact bucketOf_setBucket_ne _ _ _ _ (htag ▸ ht)

/-- Concrete line item for the C1 witness: known negative inventory, not in
the Preorder collection. -/
def c1detail : PDetail :=
  { title := "Widget Book", vendor := "V", available := some (-3),
    collections := ["Cooking"], incoming := 0, price := some "10.00" }

def c1variant : Variant :=
  { sku := some "SKU-1", barcode := some "979000", productId := "prodA",
    productTitle := "Widget Book", productTotalInventory := some (-3) }

def c1line : LineItem := { quantity := 2, customAttributes := [], variant := some c1variant }

/-- **C1 witness.** The concrete line item with available = -3 lands its
product in the backorder bucket and leaves the main bucket untouched. -/
theorem line_item_classification_witness :
    alist_get (bucketOf (process_line [("prodA", c1detail)] "web" "" ⟨[], [], [], []⟩ c1line)
      (claimClassify (effCollections [("prodA", c1detail)] c1variant)
        (effAvailable [("prodA", c1detail)] c1variant))) "prodA" ≠ none ∧
    bucketOf (process_line [("prodA", c1detail)] "web" "" ⟨[], [], [], []⟩ c1line)
      BTag.mainB = bucketOf (⟨[], [], [], []⟩ : Buckets) BTag.mainB := by
  have h := line_item_classification [("prodA", c1detail)] "web" "" ⟨[], [], [], []⟩
    c1line c1variant BTag.mainB rfl (by decide)
  exact ⟨h.1, h.2 (by decide)⟩

/-- **C8.** `aggregate_products` silently skips line items lacking a variant
reference and still processes all remaining line items: dropping the
variantless line items from the input changes nothing. With the embedding
total by construction (the GraphQL payload shape guarantees a product inside
every non-null variant), this is the no-crash property of the claim. -/
theorem aggregate_skips_missing_variant (orders : List Order)
    (details : List (String × PDetail)) :
    aggregate_products orders details =
      aggregate_products
        (orders.map fun o => { o with lineItems := o.lineItems.filter fun li => li.variant.isSome })
        details := by
  unfold aggregate_products
  suffices h : ∀ st : Buckets, orders.foldl
      (fun st o => o.lineItems.foldl (process_line details o.sourceName o.channelHandle) st) st =
    (orders.map fun o => { o with lineItems := o.lineItems.filter fun li => li.variant.isSome }).foldl
      (fun st o => o.lineItems.foldl (process_line details o.sourceName o.channelHandle) st) st by
    exact h _
  intro st
  induction orders generalizing st with
  | nil => rfl
  | cons o os ih =>
    rw [List.map_cons, List.foldl_cons, List.foldl_cons]
    have hinner : ∀ (ls : List LineItem) (st' : Buckets),
        ls.foldl (process_line details o.sourceName o.channelHandle) st' =
          (ls.filter fun li => li.variant.isSome).foldl
            (process_line details o.sourceName o.channelHandle) st' := by
      intro ls
      induction ls with
      | nil => intro st'; rfl
      | cons li ls ihl =>
        intro st'
        cases hv : li.variant with
        | none =>
          rw [List.foldl_cons, process_line_variant_none _ _ _ _ _ hv]
          have : (li.variant.isSome : Bool) = false := by rw [hv]; rfl
          rw [List.filter_cons, this]
          simp only [Bool.false_eq_true, if_false]
          exact ihl st'
        | some v =>
          have : (li.variant.isSome : Bool) = true := by rw [hv]; rfl
          rw [List.filter_cons, this]
          simp only [if_true]
          rw [List.foldl_cons, List.foldl_cons]
          exact ihl _
    rw [hinner]
    exact ih _

/-- Counterexample input for C7: the same product id occurs on two line items
with different embedded titles and no enrichment entry, so the title-based
exclusion fires on one line item but not the other. -/
def c7variant_club : Variant :=
  { sku := some "S1", barcode := some "B1", productId := "gid-P7",
    productTitle := "Cookbook Club Box", productTotalInventory := some 5 }

def c7variant_plain : Variant :=
  { sku := some "S1", barcode := some "B1", productId := "gid-P7",
    productTitle := "Ordinary Book", productTotalInventory := some 5 }

def c7order : Order :=
  { sourceName := "web", channelHandle := "online_store",
    lineItems := [{ quantity := 1, customAttributes := [], variant := some c7variant_club },
                  { quantity := 1, customAttributes := [], variant := some c7variant_plain }] }

/-- **C7 counterexample.** A line item whose product title matches the
blacklisted case-insensitive "cookbook club" prefix is skipped, yet its
product still appears in the main bucket — with a nonzero online-sold
total — because a second line item of the same product carries a different
embedded title and there is no enrichment entry to pin the title down. -/
theorem exclusion_counterexample :
    list_starts ("cookbook club".data) ((py_lower (effTitle [] c7variant_club)).data) = true ∧
    c7variant_club.productId ∉ BLACKLISTED_PRODUCT_IDS ∧
    alist_get (bucketOf (aggregate_products [c7order] []) BTag.mainB) "gid-P7" ≠ none ∧
    (alist_get (bucketOf (aggregate_products [c7order] []) BTag.mainB) "gid-P7").map
      Entry.ol_sold = some 1 := by
  refine ⟨by decide, by decide, by decide, by decide⟩

/-- **C7 amended.** A skipped line item contributes nothing, and the excluded
product appears in no bucket whenever its exclusion is a property of the
product: a blacklisted product id never appears in any bucket, and a product
all of whose line items fire the exclusion filter (always the case when the
enrichment title matches, since all its line items then share that title)
appears in no bucket and therefore contributes to no online-sold or pos-sold
total. -/
theorem exclusion_amended (orders : List Order) (details : List (String × PDetail))
    (p : String) (t : BTag)
    (hall : p ∈ BLACKLISTED_PRODUCT_IDS ∨
      ∀ o ∈ orders, ∀ li ∈ o.lineItems, ∀ v : Variant, li.variant = some v →
        v.productId = p → excluded details v = true) :
    alist_get (bucketOf (aggregate_products orders details) t) p = none := by
  have huni : ∀ o ∈ orders, ∀ li ∈ o.lineItems, ∀ v : Variant, li.variant = some v →
      v.productId = p → excluded details v = true := by
    rcases hall with hb | h
    · intro o _ li _ v _ hpid
      unfold excluded
      rw [hpid]
      simp [hb]
    · exact h
  unfold aggregate_products
  rw [foldl_orders_absent _ _ _ _ huni t]
  exact aggregate_init_lookup t p

/-- Concrete input for the C7 amended witness: one line item of a blacklisted
product id. -/
def c7wvariant : Variant :=
  { sku := none, barcode := none,
    productId := "gid://shopify/Product/5238890889349",
    productTitle := "Club thing", productTotalInventory := some 4 }

def c7wline : LineItem :=
  { quantity := 3, customAttributes := [], variant := some c7wvariant }

def c7worder : Order :=
  { sourceName := "pos", channelHandle := "", lineItems := [c7wline] }

/-- **C7 amended witness.** The blacklisted product id appears in no bucket of
the concrete run. -/
theorem exclusion_amended_witness :
    alist_get (bucketOf (aggregate_products [c7worder] []) BTag.mainB)
      "gid://shopify/Product/5238890889349" = none :=
  exclusion_amended [c7worder] [] "gid://shopify/Product/5238890889349" BTag.mainB
    (Or.inl (by decide))

/-- Counterexample input for C2: one product, no enrichment entry, two line
items embedding different inventory figures. -/
def c2variant_neg : Variant :=
  { sku := none, barcode := none, productId := "gid-Q2",
    productTitle := "Widget", productTotalInventory := some (-1) }

def c2variant_pos : Variant :=
  { sku := none, barcode := none, productId := "gid-Q2",
    productTitle := "Widget", productTotalInventory := some 2 }

def c2order : Order :=
  { sourceName := "web", channelHandle := "",
    lineItems := [{ quantity := 1, customAttributes := [], variant := some c2variant_neg },
                  { quantity := 1, customAttributes := [], variant := some c2variant_pos }] }

/-- **C2 counterexample.** A non-blacklisted product with no enrichment entry
appears in two buckets of the same run: its two line items embed different
`totalInventory` figures, so the per-line fallback classifies one into
backorder and the other into main. -/
theorem partition_counterexample :
    "gid-Q2" ∉ BLACKLISTED_PRODUCT_IDS ∧
    alist_get (bucketOf (aggregate_products [c2order] []) BTag.backorderB) "gid-Q2" ≠ none ∧
    alist_get (bucketOf (aggregate_products [c2order] []) BTag.mainB) "gid-Q2" ≠ none := by
  refine ⟨by decide, by decide, by decide⟩

/-- **C2 amended.** For a product that has an entry in the enrichment map, the
partition property holds as claimed: if the product appears on at least one
processed line item it is present in exactly the bucket determined by its
enrichment snapshot (the same for every line item and independent of order
traversal), and absent from every other bucket.  Without an enrichment entry
the bucket is decided per line item from the embedded inventory figure and
the product can appear in several buckets (see the counterexample). -/
theorem partition_amended (orders : List Order) (details : List (String × PDetail))
    (p : String) (pd : PDetail) (t : BTag)
    (hpd : alist_get details p = some pd) :
    (processed_line_exists orders details p →
      alist_get (bucketOf (aggregate_products orders details)
        (claimClassify pd.collections pd.available)) p ≠ none) ∧
    (t ≠ claimClassify pd.collections pd.available →
      alist_get (bucketOf (aggregate_products orders details) t) p = none) := by
  have hcl : ∀ o ∈ orders, ∀ li ∈ o.lineItems, ∀ v : Variant, li.variant = some v →
      v.productId = p → excluded details v = false →
      line_tag details v = claimClassify pd.collections pd.available := by
    intro o _ li _ v _ hpid _
    exact line_tag_of_detail details p pd v hpd hpid
  constructor
  · intro hex
    unfold aggregate_products
    exact foldl_orders_mem _ _ _ _ _ hcl hex
  · intro ht
    unfold aggregate_products
    rw [foldl_orders_off_tag _ _ _ _ _ _ hcl ht]
    exact aggregate_init_lookup t p

/-- Concrete input for the C2 amended witness: one enriched product with
available = -2 on a single processed line item. -/
def c2wdetail : PDetail :=
  { title := "W", vendor := "", available := some (-2), collections := [],
    incoming := 0, price := none }

def c2wvariant : Variant :=
  { sku := none, barcode := none, productId := "gid-W",
    productTitle := "W", productTotalInventory := none }

def c2wline : LineItem := { quantity := 1, customAttributes := [], variant := some c2wvariant }

def c2worder : Order := { sourceName := "web", channelHandle := "", lineItems := [c2wline] }

/-- **C2 amended witness.** The enriched product lands in the backorder bucket
and is absent from the main bucket. -/
theorem partition_amended_witness :
    alist_get (bucketOf (aggregate_products [c2worder] [("gid-W", c2wdetail)])
      BTag.backorderB) "gid-W" ≠ none ∧
    alist_get (bucketOf (aggregate_products [c2worder] [("gid-W", c2wdetail)])
      BTag.mainB) "gid-W" = none := by
  have h := partition_amended [c2worder] [("gid-W", c2wdetail)] "gid-W" c2wdetail
    BTag.mainB (by decide)
  exact ⟨h.1 ⟨c2worder, by simp, c2wline, by simp [c2worder], c2wvariant, rfl, rfl, by decide⟩,
    h.2 (by decide)⟩

/-! ## Unfulfilled-risk flow (`weekly_unfulfilled_line_items_report.py`) -/

/-- One `quantities` record of an inventory level (`name`/`quantity`). -/
structure QuantityEntry where
  name : String
  quantity : Option Int
deriving DecidableEq, Repr

/-- One inventory level of a variant. -/
structure InvLevel where
  quantities : List QuantityEntry
deriving DecidableEq, Repr

/-- One variant node of a product as returned by `PRODUCTS_BY_ID_QUERY`. -/
structure VariantNode where
  inventoryLevels : List InvLevel
deriving DecidableEq, Repr

/-- A product node as returned by `PRODUCTS_BY_ID_QUERY`. -/
structure ProductNode where
  id : String
  title : Option String
  vendor : Option String
  totalInventory : Option Int
  collectionTitles : List (Option String)
  variants : List VariantNode
deriving DecidableEq, Repr

/-- `ProductSnapshot` from `weekly_unfulfilled_line_items_report.py`. -/
structure ProductSnapshot where
  product_id : String
  title : String
  vendor : String
  total_inventory : Option Int
  collections : List String
  committed : Int
  is_preorder : Bool
deriving DecidableEq, Repr

/-- `UnfulfilledLineRow` from `weekly_unfulfilled_line_items_report.py`
(timestamps as integer epoch seconds). -/
structure UnfulfilledLineRow where
  order_id : String
  order_name : String
  processed_at_utc : Int
  product_id : String
  product_title : String
  product_vendor : String
  variant_id : Option String
  isbn : String
  author : String
  qty_ordered : Int
  qty_unfulfilled : Int
  notes : String
  attributes : String
deriving DecidableEq, Repr

/-- `collections = [c.get("title") for c in nodes if c.get("title")]`:
keep the truthy (non-null, non-empty) collection titles. -/
def snapshot_collections (node : ProductNode) : List String :=
  node.collectionTitles.filterMap fun t =>
    match t with
    | some s => if s = "" then none else some s
    | none => none

/-- Sum of the `committed` quantities over all variants and inventory levels. -/
def snapshot_committed (node : ProductNode) : Int :=
  node.variants.foldl (fun acc v =>
    v.inventoryLevels.foldl (fun acc lvl =>
      lvl.quantities.foldl (fun acc q =>
        if q.name == "committed" then acc + q.quantity.getD 0 else acc) acc) acc) 0

/-- Snapshot construction from one product node inside
`build_product_snapshots`; `is_preorder` is `any("Preorder" in (c or "") for c
in collections)`, a substring test on each collection title. -/
def snapshot_of_node (node : ProductNode) : ProductSnapshot :=
  let collections := snapshot_collections node
  { product_id := node.id
    title := py_or_str node.title ""
    vendor := py_or_str node.vendor ""
    total_inventory := node.totalInventory
    collections := collections
    committed := snapshot_committed node
    is_preorder := collections.any fun c => py_in_str "Preorder" c }

/-- `build_product_snapshots`: fold the fetched product nodes into the cache
keyed by product id. -/
def build_product_snapshots (nodes : List ProductNode) :
    List (String × ProductSnapshot) :=
  nodes.foldl (fun cache node =>
    match alist_get cache node.id with
    | some _ => alist_set cache node.id (snapshot_of_node node)
    | none => cache ++ [(node.id, snapshot_of_node node)]) []

/-- `derive_attributes_for_line` from
`weekly_unfulfilled_line_items_report.py`. -/
def derive_attributes_for_line (row : UnfulfilledLineRow)
    (product : ProductSnapshot) : String :=
  if product.is_preorder then ""
  else
    match product.total_inventory with
    | none => ""
    | some t => if t < 0 then "backorder" else "pending_fulfillment"

/-- `is_risk_product` from `weekly_unfulfilled_line_items_report.py`. -/
def is_risk_product (product : ProductSnapshot) : Bool :=
  if product.is_preorder then false
  else
    match product.total_inventory with
    | none => false
    | some t => if product.committed ≤ 0 then false else decide (t ≤ 0)

/-- `attach_attributes_and_vendor`: join each row with its product snapshot,
dropping rows without a snapshot and rows of preorder products, preferring
the snapshot's truthy title/vendor, and deriving the status label. -/
def attach_attributes_and_vendor (rows : List UnfulfilledLineRow)
    (products : List (String × ProductSnapshot)) : List UnfulfilledLineRow :=
  rows.filterMap fun r =>
    match alist_get products r.product_id with
    | none => none
    | some p =>
      if p.is_preorder then none
      else
        let r' := { r with
          product_title := py_or_str (some p.title) r.product_title,
          product_vendor := py_or_str (some p.vendor) r.product_vendor }
        some { r' with attributes := derive_attributes_for_line r' p }

/-- Grouping keys of `by_pid` in first-occurrence order. -/
def first_keys (rows : List UnfulfilledLineRow) : List String :=
  rows.foldl (fun acc r => if acc.contains r.product_id then acc else acc ++ [r.product_id]) []

/-- The five-way age bucket at thresholds 7/14/30/60. -/
def age_bucket_of (age_days : Int) : String :=
  if age_days ≤ 7 then "0-7"
  else if age_days ≤ 14 then "8-14"
  else if age_days ≤ 30 then "15-30"
  else if age_days ≤ 60 then "31-60"
  else "60+"

/-- The heatmap glyph column. -/
def heatmap_of (age_days : Int) : String :=
  if age_days ≤ 7 then "g"
  else if age_days ≤ 14 then "y"
  else if age_days ≤ 30 then "o"
  else "r"

/-- A row of the risk-focused product summary. -/
structure SummaryRow where
  product_id : String
  title : String
  vendor : String
  collections : String
  total_inventory : Option Int
  committed : Int
  earliest_order_utc : Int
  latest_order_utc : Int
  age_days : Int
  age_bucket : String
  heatmap : String
  sla_breach : String
deriving DecidableEq, Repr

/-- The summary entry for one grouped product id in
`compute_product_age_summary`: skipped when the snapshot is missing or not
risk-flagged, otherwise built from the min/max processed timestamps of the
product's rows. -/
def summary_for (now slaThreshold : Int) (products : List (String × ProductSnapshot))
    (rows : List UnfulfilledLineRow) (pid : String) : Option SummaryRow :=
  match alist_get products pid with
  | none => none
  | some p =>
    if is_risk_product p then
      match (rows.filter fun r => r.product_id == pid).map
          (fun r => r.processed_at_utc) with
      | [] => none
      | t :: ts =>
        let earliest := ts.foldl min t
        let latest := ts.foldl max t
        let age_days := Int.fdiv (now - earliest) 86400
        some { product_id := pid, title := p.title, vendor := p.vendor,
               collections := String.intercalate ", " p.collections,
               total_inventory := p.total_inventory, committed := p.committed,
               earliest_order_utc := earliest, latest_order_utc := latest,
               age_days := age_days, age_bucket := age_bucket_of age_days,
               heatmap := heatmap_of age_days,
               sla_breach := if slaThreshold ≤ age_days then "YES" else "" }
    else none

/-- `compute_product_age_summary`: group rows by product id, keep the
risk-flagged products with a snapshot, and sort descending by age. -/
def compute_product_age_summary (now slaThreshold : Int)
    (rows : List UnfulfilledLineRow) (products : List (String × ProductSnapshot)) :
    List SummaryRow :=
  ((first_keys rows).filterMap (summary_for now slaThreshold products rows)).insertionSort
    (fun a b => b.age_days ≤ a.age_days)

theorem summary_for_spec (now slaThreshold : Int)
    (products : List (String × ProductSnapshot)) (rows : List UnfulfilledLineRow)
    (pid : String) (s : SummaryRow)
    (h : summary_for now slaThreshold products rows pid = some s) :
    ∃ p : ProductSnapshot, alist_get products pid = some p ∧
      is_risk_product p = true ∧ s.product_id = pid := by
  unfold summary_for at h
  split at h
  · exact absurd h (by simp)
  · rename_i p hp
    split at h
    · rename_i hr
      refine ⟨p, hp, hr, ?_⟩
      split at h
      · exact absurd h (by simp)
      · simp only [Option.some.injEq] at h
        rw [← h]
    · exact absurd h (by simp)

theorem mem_summary_spec (now slaThreshold : Int)
    (rows : List UnfulfilledLineRow) (products : List (String × ProductSnapshot))
    (s : SummaryRow)
    (h : s ∈ compute_product_age_summary now slaThreshold rows products) :
    ∃ p : ProductSnapshot, alist_get products s.product_id = some p ∧
      is_risk_product p = true := by
  unfold compute_product_age_summary at h
  rw [List.mem_insertionSort] at h
  obtain ⟨pid, _, hsum⟩ := List.mem_filterMap.mp h
  obtain ⟨p, hp, hr, hpid⟩ := summary_for_spec _ _ _ _ _ _ hsum
  exact ⟨p, hpid ▸ hp, hr⟩

theorem is_risk_iff (p : ProductSnapshot) :
    is_risk_product p = true ↔
      (p.is_preorder = false ∧
        ∃ t : Int, p.total_inventory = some t ∧ t ≤ 0 ∧ 0 < p.committed) := by
  constructor
  · intro h
    unfold is_risk_product at h
    by_cases hpre : p.is_preorder = true
    · rw [if_pos hpre] at h
      exact absurd h (by simp)
    · have hpre' : p.is_preorder = false := by simpa using hpre
      rw [if_neg hpre] at h
      refine ⟨hpre', ?_⟩
      cases hti : p.total_inventory with
      | none => rw [hti] at h; exact absurd h (by simp)
      | some t =>
        rw [hti] at h
        have h' : (if p.committed ≤ 0 then false else decide (t ≤ 0)) = true := h
        by_cases hc : p.committed ≤ 0
        · rw [if_pos hc] at h'
          exact absurd h' (by simp)
        · rw [if_neg hc] at h'
          exact ⟨t, rfl, by simpa using h', by omega⟩
  · rintro ⟨hpre, t, hti, hle, hc⟩
    unfold is_risk_product
    rw [if_neg (by simp [hpre]), hti]
    show (if p.committed ≤ 0 then false else decide (t ≤ 0)) = true
    rw [if_neg (by omega : ¬ p.committed ≤ 0)]
    simpa using hle

/-- Counterexample node for C3: a product whose only collection is titled
"Preorders" (which is not the "Preorder" collection, but contains "Preorder"
as a substring), with known inventory 0 and committed 5. -/
def c3node : ProductNode :=
  { id := "gid-R", title := some "R", vendor := some "V",
    totalInventory := some 0,
    collectionTitles := [some "Preorders"],
    variants := [{ inventoryLevels := [{ quantities := [{ name := "committed", quantity := some 5 }] }] }] }

/-- **C3 counterexample.** The snapshot built for `c3node` is not in the
"Preorder" collection, has known inventory 0 and committed 5 — so the claim
requires `is_risk_product` to return true — yet it returns false, because the
code suppresses the flag on a substring match of "Preorder" against any
collection title, not on membership of "Preorder" in the collection set. -/
theorem risk_product_counterexample :
    "Preorder" ∉ (snapshot_of_node c3node).collections ∧
    (snapshot_of_node c3node).total_inventory = some 0 ∧
    (snapshot_of_node c3node).committed = 5 ∧
    is_risk_product (snapshot_of_node c3node) = false := by
  refine ⟨by decide, by decide, by decide, by decide⟩

/-- **C3 amended.** For every snapshot built by `build_product_snapshots`,
`is_risk_product` returns true iff no collection title of the product contains
"Preorder" as a substring, the total inventory is known and at most 0, and the
committed quantity is strictly positive; and only products whose snapshot is
risk-flagged appear in the risk summary output. -/
theorem risk_product_amended (node : ProductNode) (now slaThreshold : Int)
    (rows : List UnfulfilledLineRow) (products : List (String × ProductSnapshot))
    (s : SummaryRow) :
    (is_risk_product (snapshot_of_node node) = true ↔
      ((snapshot_of_node node).collections.any (fun c => py_in_str "Preorder" c) = false ∧
        ∃ t : Int, (snapshot_of_node node).total_inventory = some t ∧ t ≤ 0 ∧
          0 < (snapshot_of_node node).committed)) ∧
    (s ∈ compute_product_age_summary now slaThreshold rows products →
      ∃ p : ProductSnapshot, alist_get products s.product_id = some p ∧
        is_risk_product p = true) := by
  constructor
  · rw [is_risk_iff]
    exact Iff.rfl
  · exact mem_summary_spec now slaThreshold rows products s

/-- Concrete inputs for the C3 amended witness. -/
def c3wnode : ProductNode :=
  { id := "gid-S", title := some "S", vendor := none,
    totalInventory := some 0,
    collectionTitles := [some "Cooking"],
    variants := [{ inventoryLevels := [{ quantities := [{ name := "committed", quantity := some 2 }] }] }] }

def c3wsnap : ProductSnapshot :=
  { product_id := "gid-S", title := "S", vendor := "", total_inventory := some 0,
    collections := ["Cooking"], committed := 2, is_preorder := false }

def c3wrow : UnfulfilledLineRow :=
  { order_id := "o1", order_name := "O1", processed_at_utc := 1000,
    product_id := "gid-S", product_title := "S", product_vendor := "",
    variant_id := none, isbn := "NO BARCODE", author := "", qty_ordered := 1,
    qty_unfulfilled := 1, notes := "", attributes := "" }

def c3wsummary : SummaryRow :=
  { product_id := "gid-S", title := "S", vendor := "", collections := "Cooking",
    total_inventory := some 0, committed := 2, earliest_order_utc := 1000,
    latest_order_utc := 1000, age_days := 0, age_bucket := "0-7", heatmap := "g",
    sla_breach := "" }

/-- **C3 amended witness.** The concrete node is risk-flagged, and the summary
row the concrete run produces belongs to a risk-flagged snapshot. -/
theorem risk_product_amended_witness :
    is_risk_product (snapshot_of_node c3wnode) = true ∧
    (∃ p : ProductSnapshot, alist_get [("gid-S", c3wsnap)] c3wsummary.product_id = some p ∧
      is_risk_product p = true) := by
  have h := risk_product_amended c3wnode 1000 30 [c3wrow] [("gid-S", c3wsnap)] c3wsummary
  refine ⟨h.1.mpr ⟨by decide, 0, by decide, by decide, by decide⟩, h.2 (by decide)⟩

/-- Counterexample inputs for C9: a preorder-flagged product with known
non-negative inventory. -/
def c9product : ProductSnapshot :=
  { product_id := "gid-D", title := "D", vendor := "",
    total_inventory := some 3, collections := ["Preorder"], committed := 5,
    is_preorder := true }

def c9row : UnfulfilledLineRow :=
  { order_id := "o9", order_name := "O9", processed_at_utc := 0,
    product_id := "gid-D", product_title := "D", product_vendor := "",
    variant_id := none, isbn := "NO BARCODE", author := "", qty_ordered := 1,
    qty_unfulfilled := 1, notes := "", attributes := "" }

/-- **C9 counterexample.** For a preorder-flagged product with total inventory
3 (not negative), the claim requires the status label "pending_fulfillment",
but `derive_attributes_for_line` returns the empty string — and the joined
line-item output drops the row entirely rather than carrying a status. -/
theorem line_status_counterexample :
    c9product.total_inventory = some 3 ∧
    ¬ (3 : Int) < 0 ∧
    derive_attributes_for_line c9row c9product ≠ "pending_fulfillment" ∧
    derive_attributes_for_line c9row c9product = "" ∧
    attach_attributes_and_vendor [c9row] [("gid-D", c9product)] = [] := by
  refine ⟨by decide, by decide, by decide, by decide, by decide⟩

/-- **C9 amended.** The status label is "backorder" when the product is not
preorder-flagged and its known total inventory is negative,
"pending_fulfillment" when the product is not preorder-flagged and its known
total inventory is non-negative, and empty when the product is
preorder-flagged or its inventory is unknown; it is computed independently of
the committed quantity (the risk-flag input), so a product excluded from the
risk summary for lack of committed demand still gets a status — but
preorder-flagged rows are dropped from the joined output rather than
labelled. -/
theorem line_status_amended (row : UnfulfilledLineRow) (p : ProductSnapshot)
    (t c : Int) :
    (p.is_preorder = false → p.total_inventory = some t → t < 0 →
      derive_attributes_for_line row p = "backorder") ∧
    (p.is_preorder = false → p.total_inventory = some t → 0 ≤ t →
      derive_attributes_for_line row p = "pending_fulfillment") ∧
    (p.is_preorder = true → derive_attributes_for_line row p = "") ∧
    (p.total_inventory = none → derive_attributes_for_line row p = "") ∧
    derive_attributes_for_line row { p with committed := c } =
      derive_attributes_for_line row p := by
  refine ⟨?_, ?_, ?_, ?_, ?_⟩
  · intro h1 h2 h3
    simp [derive_attributes_for_line, h1, h2, h3]
  · intro h1 h2 h3
    have h4 : ¬ t < 0 := by omega
    simp [derive_attributes_for_line, h1, h2, h4]
  · intro h1
    simp [derive_attributes_for_line, h1]
  · intro h1
    cases hpre : p.is_preorder <;> simp [derive_attributes_for_line, h1, hpre]
  · rfl

/-- Concrete products for the C9 amended witness. -/
def c9wback : ProductSnapshot :=
  { product_id := "gid-E", title := "E", vendor := "", total_inventory := some (-4),
    collections := [], committed := 0, is_preorder := false }

def c9wpend : ProductSnapshot :=
  { product_id := "gid-F", title := "F", vendor := "", total_inventory := some 0,
    collections := [], committed := 0, is_preorder := false }

def c9wnone : ProductSnapshot :=
  { product_id := "gid-G", title := "G", vendor := "", total_inventory := none,
    collections := [], committed := 1, is_preorder := false }

/-- **C9 amended witness.** Concrete evaluations of each branch, including a
product with committed = 0 (excluded from the risk summary) that still gets a
status, and the committed-independence equation. -/
theorem line_status_amended_witness :
    derive_attributes_for_line c9row c9wback = "backorder" ∧
    derive_attributes_for_line c9row c9wpend = "pending_fulfillment" ∧
    derive_attributes_for_line c9row c9product = "" ∧
    derive_attributes_for_line c9row c9wnone = "" ∧
    derive_attributes_for_line c9row { c9wback with committed := 7 } =
      derive_attributes_for_line c9row c9wback := by
  refine ⟨?_, ?_, ?_, ?_, ?_⟩
  · exact (line_status_amended c9row c9wback (-4) 0).1 (by decide) (by decide) (by decide)
  · exact (line_status_amended c9row c9wpend 0 0).2.1 (by decide) (by decide) (by decide)
  · exact (line_status_amended c9row c9product 3 0).2.2.1 (by decide)
  · exact (line_status_amended c9row c9wnone 0 0).2.2.2.1 (by decide)
  · exact (line_status_amended c9row c9wback 0 7).2.2.2.2

/-- **C10.** A line item whose product id has no entry in the product-snapshot
map is silently dropped: no row of the joined line-item output and no entry of
the product age summary carries that product id (and so no default snapshot or
fallback classification is ever applied to it). -/
theorem missing_snapshot_dropped (rows : List UnfulfilledLineRow)
    (products : List (String × ProductSnapshot)) (pid : String)
    (r : UnfulfilledLineRow) (s : SummaryRow) (now slaThreshold : Int)
    (hmiss : alist_get products pid = none) :
    (r ∈ attach_attributes_and_vendor rows products → r.product_id ≠ pid) ∧
    (s ∈ compute_product_age_summary now slaThreshold rows products →
      s.product_id ≠ pid) := by
  constructor
  · intro hmem hpid
    unfold attach_attributes_and_vendor at hmem
    obtain ⟨r0, _, hf⟩ := List.mem_filterMap.mp hmem
    split at hf
    · exact absurd hf (by simp)
    · rename_i p hp
      split at hf
      · exact absurd hf (by simp)
      · simp only [Option.some.injEq] at hf
        subst hf
        have h2 : r0.product_id = pid := hpid
        rw [h2, hmiss] at hp
        exact Option.noConfusion hp
  · intro hmem hpid
    obtain ⟨p, hp, _⟩ := mem_summary_spec now slaThreshold rows products s hmem
    rw [hpid, hmiss] at hp
    exact Option.noConfusion hp

/-- Concrete inputs for the C10 witness: two rows, only one of which has a
snapshot. -/
def c10rowX : UnfulfilledLineRow :=
  { order_id := "o1", order_name := "O1", processed_at_utc := 100,
    product_id := "X", product_title := "TX", product_vendor := "VX",
    variant_id := none, isbn := "i", author := "a", qty_ordered := 1,
    qty_unfulfilled := 1, notes := "", attributes := "" }

def c10rowY : UnfulfilledLineRow :=
  { order_id := "o1", order_name := "O1", processed_at_utc := 100,
    product_id := "Y", product_title := "TY", product_vendor := "VY",
    variant_id := none, isbn := "i", author := "a", qty_ordered := 1,
    qty_unfulfilled := 1, notes := "", attributes := "" }

def c10snapY : ProductSnapshot :=
  { product_id := "Y", title := "TY", vendor := "VY", total_inventory := some 1,
    collections := [], committed := 1, is_preorder := false }

def c10dummy : SummaryRow :=
  { product_id := "", title := "", vendor := "", collections := "",
    total_inventory := none, committed := 0, earliest_order_utc := 0,
    latest_order_utc := 0, age_days := 0, age_bucket := "", heatmap := "",
    sla_breach := "" }

/-- **C10 witness.** In the concrete run the surviving joined row is not the
snapshot-less product "X". -/
theorem missing_snapshot_dropped_witness :
    (((attach_attributes_and_vendor [c10rowX, c10rowY] [("Y", c10snapY)]).head?).getD
      c10rowX).product_id ≠ "X" :=
  (missing_snapshot_dropped [c10rowX, c10rowY] [("Y", c10snapY)] "X"
    (((attach_attributes_and_vendor [c10rowX, c10rowY] [("Y", c10snapY)]).head?).getD c10rowX)
    c10dummy 0 30 (by decide)).1 (by decide)

end SrOps
